import Mathlib

/-!
Verification of the prompt-construction and request-orchestration core of
"Rohit's Product Studio" (src/App.tsx), a browser front-end that builds a
natural-language prompt from user-selected options and orchestrates two
asynchronous collaborator calls (style analysis and image generation).

The embedding below mirrors src/App.tsx:
* the static lookup tables LIGHTING_DESCRIPTIONS / CAMERA_PERSPECTIVE_DESCRIPTIONS
  (lines 9-25), reproduced verbatim;
* the prompt builder generateNewPrompt (lines 68-99) as a pure function of the
  component state it reads;
* the generation handler handleGenerate (lines 101-119) and the style-analysis
  effect (lines 45-65) as state-transition functions. The outcome of an awaited
  collaborator call is passed in as an `Except ThrownValue _` value, and each
  transition also returns the list of collaborator calls it makes, so that
  "zero calls" / "exactly one call with these arguments" are provable.

JavaScript truthiness is modelled faithfully: `!productImage` on an
`ImageFile | null` is `Option.isNone`, and `!prompt` / `if (styleDescription)`
on a string test emptiness, so a `some ""` description behaves like `null`.
-/

set_option maxRecDepth 8000

namespace ProductStudio

/-- `ImageFile` from src/types.ts as used by App.tsx: an uploaded or generated
image held in memory. -/
structure ImageFile where
  base64 : String
  mimeType : String
  name : String
deriving DecidableEq

/-- The six lighting presets, the keys of `LIGHTING_DESCRIPTIONS`
(src/App.tsx lines 9-16). -/
inductive LightingStyle where
  | naturalLight
  | studioLight
  | goldenHour
  | blueHour
  | cinematic
  | dramatic
deriving DecidableEq

/-- The six camera-perspective presets, the keys of
`CAMERA_PERSPECTIVE_DESCRIPTIONS` (src/App.tsx lines 18-25). -/
inductive CameraPerspective where
  | frontView
  | topView
  | sideView
  | angle45
  | closeUp
  | macroShot
deriving DecidableEq

/-- `CustomizationOptions` from src/types.ts as used by App.tsx. -/
structure CustomizationOptions where
  lightingStyle : LightingStyle
  cameraPerspective : CameraPerspective
deriving DecidableEq

/-- The static lighting lookup table, src/App.tsx lines 9-16, verbatim. -/
def LIGHTING_DESCRIPTIONS : LightingStyle → String
  | .naturalLight => "Bathed in soft, diffused natural light, creating a clean, airy, and authentic feel. Emphasize realistic highlights and gentle shadows."
  | .studioLight => "Lit with a professional multi-point studio setup. Use a key light, fill light, and rim light to sculpt the product's form, create depth, and produce crisp, clean highlights. The background should be seamless and evenly lit."
  | .goldenHour => "Illuminated by the warm, soft, and directional light of the golden hour (just after sunrise or before sunset). The scene should have long, soft shadows and a warm, inviting color palette."
  | .blueHour => "Captured during the blue hour (the period of twilight in the morning or evening). The light should be cool, soft, and diffused, creating a serene and moody atmosphere with a predominantly blue color cast."
  | .cinematic => "Use dramatic, moody lighting with high contrast, similar to a film still. Emphasize texture and shape with creative use of light and shadow. Consider using color gels for a stylized effect."
  | .dramatic => "Characterized by high contrast and strong, hard light (chiaroscuro). Use deep shadows to create a sense of mystery, power, and intensity, focusing attention on specific parts of the product."

/-- The static camera-perspective lookup table, src/App.tsx lines 18-25, verbatim. -/
def CAMERA_PERSPECTIVE_DESCRIPTIONS : CameraPerspective → String
  | .frontView => "A direct, head-on shot from the front, perfectly centered. This perspective should clearly display the product's primary face and branding in a straightforward manner."
  | .topView => "A bird's-eye view, shot directly from above (a flat lay or knolling perspective). This is ideal for showcasing the product's shape, layout, or components on a flat surface."
  | .sideView => "A profile shot taken directly from the side. This perspective is used to highlight the product's silhouette, thickness, and details not visible from the front."
  | .angle45 => "An isometric or three-quarter view, shot from a 45-degree angle from the front and side. This popular perspective provides a sense of depth and dimension, showing multiple sides of the product at once."
  | .closeUp => "A tight shot focusing on a specific, interesting detail of the product. This should highlight its material, texture, craftsmanship, or a key feature with a shallow depth of field."
  | .macroShot => "An extreme close-up view that reveals intricate details not visible to the naked eye. This perspective should magnify textures, patterns, and minuscule components, emphasizing the product's quality and precision."

/-- The text of the prompt template (src/App.tsx lines 78-84) before the first
interpolation `${lightingDesc}`. -/
def PROMPT_HEADER : String := "Generate a high-resolution, professional product photograph of the subject in the provided image.\n\nKey requirements:\n- **Lighting**: "

/-- The text of the prompt template between `${lightingDesc}` and
`${perspectiveDesc}`. -/
def PROMPT_BETWEEN : String := "\n- **Camera Perspective**: "

/-- The text of the prompt template after `${perspectiveDesc}`. -/
def PROMPT_TAIL : String := "\n- **Background**: The background should be clean, non-distracting, and complementary to the product. A subtle, high-end studio setting is preferred, unless the lighting or style suggests otherwise.\n- **Overall Mood**: The image should feel premium, clean, and aspirational. Focus on photorealism and fine detail."

/-- The template literal assigned to `newPrompt` in src/App.tsx lines 78-84,
with the two interpolations as arguments. -/
def promptTemplate (lightingDesc perspectiveDesc : String) : String :=
  PROMPT_HEADER ++ lightingDesc ++ PROMPT_BETWEEN ++ perspectiveDesc ++ PROMPT_TAIL

/-- The clause appended while style analysis is in progress,
src/App.tsx line 88, verbatim. -/
def stylePendingClause : String := "\n\n- **Style Reference**: A style reference image is being analyzed. Please wait for the analysis to complete for specific style instructions."

/-- The clause appended when a style description is available, src/App.tsx
line 90, verbatim, with the interpolated description as argument. -/
def styleDescribedClause (styleDescription : String) : String :=
  "\n\n- **Style Reference**: Strictly adhere to the aesthetic of the provided style reference image, which is described as: \"" ++ styleDescription ++ "\". The goal is to make the product look as if it belongs in the same visual world, matching the mood, color palette, and textures."

/-- The generic fallback clause appended when a style image is present but no
description is available, src/App.tsx line 92, verbatim. -/
def styleGenericClause : String := "\n\n- **Style Reference**: Strictly adhere to the aesthetic, color palette, texture, and overall mood of the provided style reference image. The goal is to make the product look as if it belongs in the same visual world as the style reference."

/-- The prompt builder `generateNewPrompt`, src/App.tsx lines 68-99, as a pure
function of the state it reads. `if (styleDescription)` on a
`string | null` in JavaScript is false for `null` and for the empty string,
which the `some d` branch reproduces with `d = ""`. -/
def generateNewPrompt (productImage : Option ImageFile)
    (options : CustomizationOptions) (styleImage : Option ImageFile)
    (styleDescription : Option String) (isAnalyzingStyle : Bool) : String :=
  match productImage with
  | none => ""
  | some _ =>
    let lightingDesc := LIGHTING_DESCRIPTIONS options.lightingStyle
    let perspectiveDesc := CAMERA_PERSPECTIVE_DESCRIPTIONS options.cameraPerspective
    let newPrompt := promptTemplate lightingDesc perspectiveDesc
    match styleImage with
    | some _ =>
      if isAnalyzingStyle then
        newPrompt ++ stylePendingClause
      else
        match styleDescription with
        | some d => if d = "" then newPrompt ++ styleGenericClause else newPrompt ++ styleDescribedClause d
        | none => newPrompt ++ styleGenericClause
    | none => newPrompt

/-- A value thrown by a collaborator call: either a JavaScript `Error` carrying
a message (`err instanceof Error`), or any other thrown value. -/
inductive ThrownValue where
  | errorWithMessage (message : String)
  | nonError
deriving DecidableEq

/-- `err instanceof Error ? err.message : fallback`, the pattern of
src/App.tsx lines 55 and 115. -/
def thrownMessage (fallback : String) : ThrownValue → String
  | .errorWithMessage m => m
  | .nonError => fallback

/-- The fallback message of the style-analysis catch block, src/App.tsx line 55. -/
def analysisFallbackMessage : String := "Could not analyze the style image."

/-- The fallback message of the generation catch block, src/App.tsx line 115. -/
def generationFallbackMessage : String := "An unknown error occurred during image generation."

/-- The validation error set by `handleGenerate`, src/App.tsx line 103. -/
def validationMessage : String := "Please upload a product image and ensure the prompt is not empty."

/-- The component state of `App` (src/App.tsx lines 29-43): the `useState`
slots read and written by the two flows. -/
structure AppState where
  productImage : Option ImageFile
  styleImage : Option ImageFile
  generatedImage : Option ImageFile
  styleDescription : Option String
  isAnalyzingStyle : Bool
  options : CustomizationOptions
  prompt : String
  isLoading : Bool
  error : Option String
deriving DecidableEq

/-- One call to the generation collaborator
`generateImage(productImage, prompt, styleImage)`, src/App.tsx line 111. -/
structure GenCall where
  product : ImageFile
  promptText : String
  style : Option ImageFile
deriving DecidableEq

/-- The state updates made by the style-analysis effect before its `await`
(src/App.tsx lines 48-49): `setIsAnalyzingStyle(true); setError(null)`. -/
def styleAnalysisStart (s : AppState) : AppState :=
  { s with isAnalyzingStyle := true, error := none }

/-- The state updates after `await analyzeStyleImage(styleImage)` settles
(src/App.tsx lines 51-59): on success, store the description; on failure, set
the error message and clear the description; in either case the `finally`
block resets `isAnalyzingStyle`. -/
def styleAnalysisFinish (s : AppState) (result : Except ThrownValue String) : AppState :=
  match result with
  | .ok description => { s with styleDescription := some description, isAnalyzingStyle := false }
  | .error err =>
    { s with error := some (thrownMessage analysisFallbackMessage err),
             styleDescription := none, isAnalyzingStyle := false }

/-- One run of the style-analysis `useEffect` (src/App.tsx lines 45-65),
triggered on a change of `styleImage`. `result` is the outcome of the awaited
collaborator call; the second component lists the images passed to
`analyzeStyleImage` during the run. -/
def styleImageEffect (s : AppState) (result : Except ThrownValue String) :
    AppState × List ImageFile :=
  match s.styleImage with
  | some img => (styleAnalysisFinish (styleAnalysisStart s) result, [img])
  | none => ({ s with styleDescription := none }, [])

/-- The state updates made by `handleGenerate` after validation and before the
`await` (src/App.tsx lines 106-108):
`setIsLoading(true); setError(null); setGeneratedImage(null)`. -/
def generateStart (s : AppState) : AppState :=
  { s with isLoading := true, error := none, generatedImage := none }

/-- The state updates after `await generateImage(...)` settles (src/App.tsx
lines 110-118): on success, store the result; on failure, set the error
message; in either case the `finally` block resets `isLoading`. -/
def generateFinish (s : AppState) (result : Except ThrownValue ImageFile) : AppState :=
  match result with
  | .ok img => { s with generatedImage := some img, isLoading := false }
  | .error err =>
    { s with error := some (thrownMessage generationFallbackMessage err), isLoading := false }

/-- One invocation of `handleGenerate` (src/App.tsx lines 101-119). `result`
is the outcome of the awaited collaborator call (unused when validation
fails); the second component lists the calls made to `generateImage`. -/
def handleGenerate (s : AppState) (result : Except ThrownValue ImageFile) :
    AppState × List GenCall :=
  match s.productImage with
  | none => ({ s with error := some validationMessage }, [])
  | some p =>
    if s.prompt = "" then
      ({ s with error := some validationMessage }, [])
    else
      (generateFinish (generateStart s) result, [⟨p, s.prompt, s.styleImage⟩])

/-- A concrete image used to instantiate witness theorems. -/
def testImage : ImageFile := ⟨"dGVzdA==", "image/png", "product.png"⟩

/-- A second concrete image used to instantiate witness theorems. -/
def testStyleImage : ImageFile := ⟨"c3R5bGU=", "image/jpeg", "style.jpg"⟩

/-- A concrete option selection used to instantiate witness theorems. -/
def testOptions : CustomizationOptions := ⟨.naturalLight, .frontView⟩

end ProductStudio

namespace ProductStudio

/-- The fragment common to the three style clauses: the bullet header of the
style-reference section (src/App.tsx lines 88, 90 and 92). Its presence marks
a style clause; the clauses are appended nowhere else. -/
def STYLE_MARKER : String := "- **Style Reference**"

/-- With a product image and no style image, the builder returns exactly the
template (src/App.tsx lines 78-84, no clause appended). -/
theorem generateNewPrompt_noStyle (p : ImageFile) (o : CustomizationOptions)
    (sd : Option String) (an : Bool) :
    generateNewPrompt (some p) o none sd an =
      promptTemplate (LIGHTING_DESCRIPTIONS o.lightingStyle)
        (CAMERA_PERSPECTIVE_DESCRIPTIONS o.cameraPerspective) := rfl

/-- With a style image and analysis in progress, the builder appends the
pending clause (src/App.tsx line 88). -/
theorem generateNewPrompt_analyzing (p s : ImageFile) (o : CustomizationOptions)
    (sd : Option String) :
    generateNewPrompt (some p) o (some s) sd true =
      promptTemplate (LIGHTING_DESCRIPTIONS o.lightingStyle)
        (CAMERA_PERSPECTIVE_DESCRIPTIONS o.cameraPerspective) ++ stylePendingClause := rfl

/-- With a style image and no description, the builder appends the generic
fallback clause (src/App.tsx line 92). -/
theorem generateNewPrompt_descNone (p s : ImageFile) (o : CustomizationOptions) :
    generateNewPrompt (some p) o (some s) none false =
      promptTemplate (LIGHTING_DESCRIPTIONS o.lightingStyle)
        (CAMERA_PERSPECTIVE_DESCRIPTIONS o.cameraPerspective) ++ styleGenericClause := rfl

/-- With a style image and an empty-string description (falsy in JavaScript),
the builder appends the generic fallback clause, not the described clause. -/
theorem generateNewPrompt_descEmpty (p s : ImageFile) (o : CustomizationOptions) :
    generateNewPrompt (some p) o (some s) (some "") false =
      promptTemplate (LIGHTING_DESCRIPTIONS o.lightingStyle)
        (CAMERA_PERSPECTIVE_DESCRIPTIONS o.cameraPerspective) ++ styleGenericClause := rfl

/-- With a style image and a non-empty description, the builder appends the
described clause embedding the description (src/App.tsx line 90). -/
theorem generateNewPrompt_described (p s : ImageFile) (o : CustomizationOptions)
    (d : String) (hd : d ≠ "") :
    generateNewPrompt (some p) o (some s) (some d) false =
      promptTemplate (LIGHTING_DESCRIPTIONS o.lightingStyle)
        (CAMERA_PERSPECTIVE_DESCRIPTIONS o.cameraPerspective) ++ styleDescribedClause d := by
  unfold generateNewPrompt
  simp [hd]

end ProductStudio

namespace ProductStudio

/-- The template is never the empty string: its length is bounded below by the
length of its fixed header. -/
theorem promptTemplate_length_pos (l c : String) : 0 < (promptTemplate l c).length := by
  rw [promptTemplate]
  simp only [String.length_append]
  have h : 0 < PROMPT_HEADER.length := by decide
  omega

/-- A string of positive length is not the empty string. -/
theorem ne_empty_of_length_pos (s : String) (h : 0 < s.length) : s ≠ "" := by
  intro he
  rw [he] at h
  exact absurd h (by decide)

/-- The template with any clause appended is not the empty string. -/
theorem promptTemplate_append_ne_empty (l c suffix : String) :
    promptTemplate l c ++ suffix ≠ "" := by
  apply ne_empty_of_length_pos
  rw [String.length_append]
  have := promptTemplate_length_pos l c
  omega

/-- With a product image, the builder output is the template followed by some
(possibly empty) rest, in every style-analysis state. -/
theorem generateNewPrompt_data_shape (p : ImageFile) (o : CustomizationOptions)
    (si : Option ImageFile) (sd : Option String) (an : Bool) :
    ∃ rest : List Char,
      (generateNewPrompt (some p) o si sd an).data =
        (promptTemplate (LIGHTING_DESCRIPTIONS o.lightingStyle)
          (CAMERA_PERSPECTIVE_DESCRIPTIONS o.cameraPerspective)).data ++ rest := by
  cases si with
  | none => exact ⟨[], by rw [generateNewPrompt_noStyle]; simp⟩
  | some s =>
    cases an with
    | true =>
      exact ⟨stylePendingClause.data, by rw [generateNewPrompt_analyzing, String.data_append]⟩
    | false =>
      cases sd with
      | none =>
        exact ⟨styleGenericClause.data, by rw [generateNewPrompt_descNone, String.data_append]⟩
      | some d =>
        by_cases hd : d = ""
        · subst hd
          exact ⟨styleGenericClause.data, by rw [generateNewPrompt_descEmpty, String.data_append]⟩
        · exact ⟨(styleDescribedClause d).data,
            by rw [generateNewPrompt_described p s o d hd, String.data_append]⟩

/-- The first interpolated description occurs verbatim in the template. -/
theorem lighting_infix_promptTemplate (l c : String) :
    l.data <:+: (promptTemplate l c).data :=
  ⟨PROMPT_HEADER.data, (PROMPT_BETWEEN ++ c ++ PROMPT_TAIL).data, by
    simp [promptTemplate, String.data_append]⟩

/-- The second interpolated description occurs verbatim in the template. -/
theorem perspective_infix_promptTemplate (l c : String) :
    c.data <:+: (promptTemplate l c).data :=
  ⟨(PROMPT_HEADER ++ l ++ PROMPT_BETWEEN).data, PROMPT_TAIL.data, by
    simp [promptTemplate, String.data_append]⟩

end ProductStudio

namespace ProductStudio

/-- C1: for every combination of lighting and perspective options and every
style-analysis state, the prompt built by `generateNewPrompt` is the empty
string if and only if no product image is present. -/
theorem prompt_empty_iff_no_product_image (productImage : Option ImageFile)
    (o : CustomizationOptions) (si : Option ImageFile) (sd : Option String) (an : Bool) :
    generateNewPrompt productImage o si sd an = "" ↔ productImage = none := by
  cases productImage with
  | none => simp [generateNewPrompt]
  | some p =>
    constructor
    · intro h
      obtain ⟨rest, hr⟩ := generateNewPrompt_data_shape p o si sd an
      have hlen := congrArg String.length h
      rw [String.length] at hlen
      rw [hr] at hlen
      simp only [List.length_append] at hlen
      have h2 := promptTemplate_length_pos (LIGHTING_DESCRIPTIONS o.lightingStyle)
        (CAMERA_PERSPECTIVE_DESCRIPTIONS o.cameraPerspective)
      rw [String.length] at h2
      simp only [String.length, List.length_nil] at hlen
      omega
    · intro h
      exact absurd h (by simp)

/-- C3: for each of the 6 lighting values and each of the 6 camera-perspective
values, when a product image is present the built prompt contains, verbatim
(as a contiguous character substring), the canned sentence of the selected
lighting value and the canned sentence of the selected perspective value from
the static lookup tables, in every style-analysis state. -/
theorem prompt_contains_canned_descriptions (p : ImageFile) (o : CustomizationOptions)
    (si : Option ImageFile) (sd : Option String) (an : Bool) :
    (LIGHTING_DESCRIPTIONS o.lightingStyle).data <:+:
        (generateNewPrompt (some p) o si sd an).data ∧
      (CAMERA_PERSPECTIVE_DESCRIPTIONS o.cameraPerspective).data <:+:
        (generateNewPrompt (some p) o si sd an).data := by
  obtain ⟨rest, hr⟩ := generateNewPrompt_data_shape p o si sd an
  rw [hr]
  constructor
  · exact (lighting_infix_promptTemplate _ _).trans
      (List.prefix_append _ _).isInfix
  · exact (perspective_infix_promptTemplate _ _).trans
      (List.prefix_append _ _).isInfix

/-- If a character occurs in the needle but not in the haystack, the needle is
not a contiguous substring of the haystack. -/
theorem not_infix_of_missing_char (ch : Char) (needle hay : String)
    (hn : ch ∈ needle.data) (hh : ch ∉ hay.data) : ¬ needle.data <:+: hay.data :=
  fun h => hh (h.subset hn)

/-- The capital letter S occurs in every style clause (in "Style Reference")
but nowhere in the Golden Hour / Close-up template. -/
theorem no_S_in_goldenHour_closeUp_template :
    'S' ∉ (promptTemplate (LIGHTING_DESCRIPTIONS .goldenHour)
      (CAMERA_PERSPECTIVE_DESCRIPTIONS .closeUp)).data := by
  intro hmem
  rw [promptTemplate, String.data_append, String.data_append, String.data_append,
    String.data_append] at hmem
  rcases List.mem_append.mp hmem with hm | h
  rotate_left
  · exact absurd h (by decide)
  rcases List.mem_append.mp hm with hm | h
  rotate_left
  · exact absurd h (by decide)
  rcases List.mem_append.mp hm with hm | h
  rotate_left
  · exact absurd h (by decide)
  rcases List.mem_append.mp hm with h | h
  · exact absurd h (by decide)
  · exact absurd h (by decide)

/-- The capital letter S occurs in the described style clause whatever the
embedded description is. -/
theorem S_in_styleDescribedClause (d : String) : 'S' ∈ (styleDescribedClause d).data := by
  rw [styleDescribedClause, String.data_append, String.data_append]
  exact List.mem_append.mpr (Or.inl (List.mem_append.mpr (Or.inl (by decide))))

/-- C8: with a product image, lighting "Golden Hour", perspective "Close-up"
and no style image, the built prompt equals the fixed template with exactly
those two canned descriptions substituted, and none of the three style
clauses occurs in it (each contains the letter S, which the whole prompt
lacks). -/
theorem golden_hour_closeup_prompt (p : ImageFile) (sd : Option String) (an : Bool) :
    generateNewPrompt (some p) ⟨.goldenHour, .closeUp⟩ none sd an =
        promptTemplate (LIGHTING_DESCRIPTIONS .goldenHour)
          (CAMERA_PERSPECTIVE_DESCRIPTIONS .closeUp) ∧
      ¬ stylePendingClause.data <:+:
        (generateNewPrompt (some p) ⟨.goldenHour, .closeUp⟩ none sd an).data ∧
      (∀ d : String, ¬ (styleDescribedClause d).data <:+:
        (generateNewPrompt (some p) ⟨.goldenHour, .closeUp⟩ none sd an).data) ∧
      ¬ styleGenericClause.data <:+:
        (generateNewPrompt (some p) ⟨.goldenHour, .closeUp⟩ none sd an).data := by
  have he := generateNewPrompt_noStyle p ⟨.goldenHour, .closeUp⟩ sd an
  refine ⟨he, ?_, ?_, ?_⟩
  · rw [he]
    exact not_infix_of_missing_char 'S' _ _ (by decide) no_S_in_goldenHour_closeUp_template
  · intro d
    rw [he]
    exact not_infix_of_missing_char 'S' _ _ (S_in_styleDescribedClause d)
      no_S_in_goldenHour_closeUp_template
  · rw [he]
    exact not_infix_of_missing_char 'S' _ _ (by decide) no_S_in_goldenHour_closeUp_template

end ProductStudio

namespace ProductStudio

/-- The double-quote character occurs in the described style clause (around
the embedded description) but nowhere in the Natural Light / Front View
template followed by the generic fallback clause. -/
theorem no_quote_in_natural_front_generic :
    '\"' ∉ (promptTemplate (LIGHTING_DESCRIPTIONS .naturalLight)
      (CAMERA_PERSPECTIVE_DESCRIPTIONS .frontView) ++ styleGenericClause).data := by
  intro hmem
  rw [String.data_append, promptTemplate, String.data_append, String.data_append,
    String.data_append, String.data_append] at hmem
  rcases List.mem_append.mp hmem with hm | h
  rotate_left
  · exact absurd h (by decide)
  rcases List.mem_append.mp hm with hm | h
  rotate_left
  · exact absurd h (by decide)
  rcases List.mem_append.mp hm with hm | h
  rotate_left
  · exact absurd h (by decide)
  rcases List.mem_append.mp hm with hm | h
  rotate_left
  · exact absurd h (by decide)
  rcases List.mem_append.mp hm with h | h
  · exact absurd h (by decide)
  · exact absurd h (by decide)

/-- C4 counterexample: when analysis resolves to the empty string (a valid
collaborator result, falsy in JavaScript), the built prompt does not contain
the clause embedding that resolved description: `if (styleDescription)` takes
the generic-fallback branch instead, so the claim fails at this input. -/
theorem described_clause_missing_for_empty_description :
    ¬ (styleDescribedClause "").data <:+:
      (generateNewPrompt (some testImage) testOptions (some testStyleImage)
        (some "") false).data := by
  have he : generateNewPrompt (some testImage) testOptions (some testStyleImage)
        (some "") false =
      promptTemplate (LIGHTING_DESCRIPTIONS .naturalLight)
        (CAMERA_PERSPECTIVE_DESCRIPTIONS .frontView) ++ styleGenericClause :=
    generateNewPrompt_descEmpty testImage testStyleImage testOptions
  rw [he]
  exact not_infix_of_missing_char '\"' _ _ (by decide) no_quote_in_natural_front_generic

/-- C4 (amended): when a product image and a style image are both present,
the built prompt is the template followed by exactly one style clause selected
by the style-analysis state: the pending clause while analysis is in progress,
the clause embedding the resolved description verbatim once analysis has
succeeded with a non-empty description, and the generic fallback clause when
the description is null (analysis failed) or the empty string. -/
theorem style_clause_matches_analysis_state (p s : ImageFile) (o : CustomizationOptions) :
    (∀ sd : Option String, generateNewPrompt (some p) o (some s) sd true =
        promptTemplate (LIGHTING_DESCRIPTIONS o.lightingStyle)
          (CAMERA_PERSPECTIVE_DESCRIPTIONS o.cameraPerspective) ++ stylePendingClause) ∧
      (∀ d : String, d ≠ "" → generateNewPrompt (some p) o (some s) (some d) false =
        promptTemplate (LIGHTING_DESCRIPTIONS o.lightingStyle)
          (CAMERA_PERSPECTIVE_DESCRIPTIONS o.cameraPerspective) ++ styleDescribedClause d) ∧
      generateNewPrompt (some p) o (some s) none false =
        promptTemplate (LIGHTING_DESCRIPTIONS o.lightingStyle)
          (CAMERA_PERSPECTIVE_DESCRIPTIONS o.cameraPerspective) ++ styleGenericClause ∧
      generateNewPrompt (some p) o (some s) (some "") false =
        promptTemplate (LIGHTING_DESCRIPTIONS o.lightingStyle)
          (CAMERA_PERSPECTIVE_DESCRIPTIONS o.cameraPerspective) ++ styleGenericClause :=
  ⟨fun sd => generateNewPrompt_analyzing p s o sd,
    fun d hd => generateNewPrompt_described p s o d hd,
    generateNewPrompt_descNone p s o,
    generateNewPrompt_descEmpty p s o⟩

/-- C4 witness: analysis resolved to "minimalist pastel" (non-empty), and the
prompt is the template followed by the clause embedding exactly that
description. -/
theorem style_clause_matches_analysis_state_witness :
    ("minimalist pastel" ≠ "") ∧
      generateNewPrompt (some testImage) testOptions (some testStyleImage)
          (some "minimalist pastel") false =
        promptTemplate (LIGHTING_DESCRIPTIONS testOptions.lightingStyle)
          (CAMERA_PERSPECTIVE_DESCRIPTIONS testOptions.cameraPerspective) ++
          styleDescribedClause "minimalist pastel" :=
  ⟨by decide, (style_clause_matches_analysis_state testImage testStyleImage testOptions).2.1
    "minimalist pastel" (by decide)⟩

end ProductStudio

namespace ProductStudio

/-- A concrete populated state used to instantiate witness theorems: a product
image, a style image, a previously generated image, a stale description, a
non-empty prompt and a previous error message are all present. -/
def testState : AppState :=
  { productImage := some testImage, styleImage := some testStyleImage,
    generatedImage := some testImage, styleDescription := some "old description",
    isAnalyzingStyle := false, options := testOptions, prompt := "a prompt",
    isLoading := false, error := some "a previous generation error" }

/-- C2: if generation is triggered while the product image is absent or the
prompt is empty, `handleGenerate` sets the validation error message and makes
zero calls to the generation collaborator. -/
theorem validation_error_and_zero_calls (s : AppState) (r : Except ThrownValue ImageFile)
    (h : s.productImage = none ∨ s.prompt = "") :
    (handleGenerate s r).1.error = some validationMessage ∧ (handleGenerate s r).2 = [] := by
  unfold handleGenerate
  rcases h with h | h
  · rw [h]
    exact ⟨rfl, rfl⟩
  · cases hp : s.productImage with
    | none => exact ⟨rfl, rfl⟩
    | some p =>
      rw [h]
      simp

/-- C2 witness: triggering generation on a state with no product image sets
the validation error and records no collaborator call. -/
theorem validation_error_and_zero_calls_witness :
    (handleGenerate { testState with productImage := none } (Except.ok testImage)).1.error =
        some validationMessage ∧
      (handleGenerate { testState with productImage := none } (Except.ok testImage)).2 = [] :=
  validation_error_and_zero_calls { testState with productImage := none }
    (Except.ok testImage) (Or.inl rfl)

/-- C10: a generation trigger that fails validation changes only the error
message: the product image, style image, previously generated image, style
description, analysis flag, options, prompt and loading flag are all left
unchanged; in particular a previous generation result is not cleared. -/
theorem validation_failure_frame (s : AppState) (r : Except ThrownValue ImageFile)
    (h : s.productImage = none ∨ s.prompt = "") :
    (handleGenerate s r).1.productImage = s.productImage ∧
      (handleGenerate s r).1.styleImage = s.styleImage ∧
      (handleGenerate s r).1.generatedImage = s.generatedImage ∧
      (handleGenerate s r).1.styleDescription = s.styleDescription ∧
      (handleGenerate s r).1.isAnalyzingStyle = s.isAnalyzingStyle ∧
      (handleGenerate s r).1.options = s.options ∧
      (handleGenerate s r).1.prompt = s.prompt ∧
      (handleGenerate s r).1.isLoading = s.isLoading ∧
      (handleGenerate s r).1.error = some validationMessage := by
  have he : (handleGenerate s r).1 = { s with error := some validationMessage } := by
    unfold handleGenerate
    rcases h with h | h
    · rw [h]
    · cases hp : s.productImage with
      | none => rfl
      | some p =>
        rw [h]
        simp
  rw [he]
  exact ⟨rfl, rfl, rfl, rfl, rfl, rfl, rfl, rfl, rfl⟩

/-- C10 witness: a validation failure (empty prompt) leaves the previously
generated image in place. -/
theorem validation_failure_frame_witness :
    (handleGenerate { testState with prompt := "" } (Except.ok testStyleImage)).1.generatedImage =
      some testImage :=
  (validation_failure_frame { testState with prompt := "" } (Except.ok testStyleImage)
    (Or.inr rfl)).2.2.1

/-- C5: a generation invocation that passes validation equals the start phase
(clearing the previous error and previous result) followed by one collaborator
call with the product image, current prompt and optional style image; on
success the resulting image is stored, and on failure the error message is
surfaced and no generated result is left. -/
theorem generation_clears_then_calls_then_settles (s : AppState) (p : ImageFile)
    (hp : s.productImage = some p) (hpr : s.prompt ≠ "") :
    (∀ r, handleGenerate s r =
        (generateFinish (generateStart s) r, [⟨p, s.prompt, s.styleImage⟩])) ∧
      (generateStart s).error = none ∧
      (generateStart s).generatedImage = none ∧
      (∀ img, generateFinish (generateStart s) (Except.ok img) =
        { s with isLoading := false, error := none, generatedImage := some img }) ∧
      (∀ err, generateFinish (generateStart s) (Except.error err) =
        { s with isLoading := false, generatedImage := none,
                 error := some (thrownMessage generationFallbackMessage err) }) := by
  refine ⟨fun r => ?_, rfl, rfl, fun img => rfl, fun err => rfl⟩
  unfold handleGenerate
  rw [hp]
  simp [hpr]

/-- C5 witness: on a state with a product image and a non-empty prompt, the
invocation decomposes into start phase plus one call, and the start phase has
cleared the previous error and result. -/
theorem generation_clears_then_calls_then_settles_witness :
    handleGenerate testState (Except.ok testStyleImage) =
        (generateFinish (generateStart testState) (Except.ok testStyleImage),
          [⟨testImage, testState.prompt, testState.styleImage⟩]) ∧
      (generateStart testState).error = none ∧
      (generateStart testState).generatedImage = none :=
  ⟨(generation_clears_then_calls_then_settles testState testImage rfl (by decide)).1
      (Except.ok testStyleImage),
    (generation_clears_then_calls_then_settles testState testImage rfl (by decide)).2.1,
    (generation_clears_then_calls_then_settles testState testImage rfl (by decide)).2.2.1⟩

/-- C6: triggering generation with a product image and a non-empty prompt
calls the generation collaborator exactly once, passing the current product
image, the current prompt and the current (optional) style image. -/
theorem generation_calls_collaborator_once (s : AppState) (p : ImageFile)
    (r : Except ThrownValue ImageFile)
    (hp : s.productImage = some p) (hpr : s.prompt ≠ "") :
    (handleGenerate s r).2 = [⟨p, s.prompt, s.styleImage⟩] := by
  unfold handleGenerate
  rw [hp]
  simp [hpr]

/-- C6 witness: one trigger on a populated state records exactly one call with
the state's product image, prompt and style image. -/
theorem generation_calls_collaborator_once_witness :
    (handleGenerate testState (Except.ok testStyleImage)).2 =
      [⟨testImage, testState.prompt, testState.styleImage⟩] :=
  generation_calls_collaborator_once testState testImage (Except.ok testStyleImage)
    rfl (by decide)

/-- C7: one run of the style-analysis effect: with no style image it resets
the stored description to null and makes no collaborator call; with a style
image it calls the collaborator on that image, stores the description on
success, and on failure clears the description and surfaces the underlying
error's text or the generic fallback message. -/
theorem style_analysis_transitions (s : AppState) :
    (s.styleImage = none →
        ∀ r, styleImageEffect s r = ({ s with styleDescription := none }, [])) ∧
      ∀ img, s.styleImage = some img →
        (∀ r, (styleImageEffect s r).2 = [img]) ∧
          (∀ d, (styleImageEffect s (Except.ok d)).1 =
            { s with isAnalyzingStyle := false, error := none,
                     styleDescription := some d }) ∧
          ∀ err, (styleImageEffect s (Except.error err)).1 =
            { s with isAnalyzingStyle := false, styleDescription := none,
                     error := some (thrownMessage analysisFallbackMessage err) } := by
  constructor
  · intro h r
    unfold styleImageEffect
    rw [h]
  · intro img h
    refine ⟨fun r => ?_, fun d => ?_, fun err => ?_⟩
    · unfold styleImageEffect
      conv_lhs => rw [h]
    · unfold styleImageEffect
      conv_lhs => rw [h]
      rfl
    · unfold styleImageEffect
      conv_lhs => rw [h]
      rfl

/-- C7 witness: removing the style image resets the description with no call;
a successful analysis stores the description; a failed analysis clears it and
surfaces the thrown message ("boom") or the generic fallback, with the call
made on the style image. -/
theorem style_analysis_transitions_witness :
    styleImageEffect { testState with styleImage := none } (Except.ok "ignored") =
        ({ testState with styleImage := none, styleDescription := none }, []) ∧
      (styleImageEffect testState (Except.ok "a new description")).1 =
        { testState with isAnalyzingStyle := false, error := none,
                         styleDescription := some "a new description" } ∧
      (styleImageEffect testState (Except.error (ThrownValue.errorWithMessage "boom"))).1 =
        { testState with isAnalyzingStyle := false, styleDescription := none,
                         error := some "boom" } ∧
      (styleImageEffect testState (Except.error ThrownValue.nonError)).1 =
        { testState with isAnalyzingStyle := false, styleDescription := none,
                         error := some analysisFallbackMessage } ∧
      (styleImageEffect testState (Except.error ThrownValue.nonError)).2 = [testStyleImage] :=
  ⟨(style_analysis_transitions { testState with styleImage := none }).1 rfl (Except.ok "ignored"),
    ((style_analysis_transitions testState).2 testStyleImage rfl).2.1 "a new description",
    ((style_analysis_transitions testState).2 testStyleImage rfl).2.2
      (ThrownValue.errorWithMessage "boom"),
    ((style_analysis_transitions testState).2 testStyleImage rfl).2.2 ThrownValue.nonError,
    ((style_analysis_transitions testState).2 testStyleImage rfl).1
      (Except.error ThrownValue.nonError)⟩

/-- C9: the two async flows share the single error slot: whenever a style
image is set, the start phase of the style-analysis effect resets the error
message to null, whatever error (including one from the generation flow) was
stored before, and after a successful analysis the error is still null. -/
theorem style_analysis_start_resets_shared_error (s : AppState) (img : ImageFile)
    (h : s.styleImage = some img) :
    (styleAnalysisStart s).error = none ∧
      ∀ d, (styleImageEffect s (Except.ok d)).1.error = none := by
  refine ⟨rfl, fun d => ?_⟩
  unfold styleImageEffect
  conv_lhs => rw [h]
  rfl

/-- C9 witness: a state carrying a previous generation-flow error loses it as
soon as style analysis starts, and it stays erased after a successful
analysis. -/
theorem style_analysis_start_resets_shared_error_witness :
    testState.error = some "a previous generation error" ∧
      (styleAnalysisStart testState).error = none ∧
      (styleImageEffect testState (Except.ok "fresh")).1.error = none :=
  ⟨rfl, (style_analysis_start_resets_shared_error testState testStyleImage rfl).1,
    (style_analysis_start_resets_shared_error testState testStyleImage rfl).2 "fresh"⟩

end ProductStudio
